import Mathlib

/-!
Verification of the AzureLens backend request-handling layer.

The definitions below are a shallow embedding of the Express backend:
`src/backend/src/index.js` (middleware wiring), `src/backend/src/routes/vision.js`
(the vision routes and the chat routes that share that file),
`src/backend/src/routes/translation.js`, `src/backend/src/middleware/validation.js`,
`src/backend/src/middleware/errorHandler.js` and
`src/backend/src/services/enhancedVisionService.js`.

Modelling conventions:
- JavaScript objects that are serialised to JSON are modelled by the `Json` type;
  an `undefined` field value is modelled by `Json.undefined` (such a field is dropped
  by `JSON.stringify`).
- JavaScript numbers are modelled by `JsNum`, a decimal mantissa/exponent pair;
  the code never does arithmetic on them, it only carries them through, tests
  their truthiness (zero is falsy) and prints them (`jsNumRender`).
- Optional request/response fields are `Option`s; JavaScript truthiness is made
  explicit at each use site (a missing value, the empty string and `0` are falsy).
- Calls to external Azure services (Vision REST API, Translator, OpenAI, Blob
  Storage) are modelled by oracle function parameters, and each call a handler
  makes is recorded in a returned `ExtCall` trace.
-/

namespace AzureLens

/-- A JavaScript number as it appears in this codebase: a decimal literal or a
JSON number carried through with no arithmetic. Modelled as
`mantissa * 10 ^ (-exponent)`; the code only ever tests its truthiness (zero
is falsy) and prints it. -/
structure JsNum where
  mantissa : Int
  exponent : Nat
deriving DecidableEq, Repr

/-- Decimal rendering of a `JsNum`, standing in for JavaScript number
printing. -/
def jsNumRender (n : JsNum) : String :=
  let digits := toString n.mantissa.natAbs
  let d := List.replicate (n.exponent + 1 - digits.length) '0' ++ digits.data
  let ip := d.take (d.length - n.exponent)
  let fp := d.drop (d.length - n.exponent)
  (if n.mantissa < 0 then "-" else "") ++ String.mk ip ++
    (if n.exponent = 0 then "" else "." ++ String.mk fp)

/-- A JSON value, as built by the backend before `res.json` serialises it.
`undefined` stands for a JavaScript `undefined` field value. -/
inductive Json where
  | null
  | undefined
  | bool (b : Bool)
  | num (q : JsNum)
  | str (s : String)
  | arr (items : List Json)
  | obj (fields : List (String × Json))

instance : Inhabited Json := ⟨Json.null⟩

/-- The field names of a JSON object (empty for non-objects). -/
def jsonKeys : Json → List String
  | .obj fields => fields.map Prod.fst
  | _ => []

/-- The elements of a JSON array (empty for non-arrays). -/
def jsonElems : Json → List Json
  | .arr items => items
  | _ => []

/-- Look up a field of a JSON object. -/
def getField : Json → String → Option Json
  | .obj fields, k => (fields.find? (fun kv => kv.1 = k)).map Prod.snd
  | _, _ => none

/-- A path into a JSON value: a sequence of object-field and array-element steps. -/
inductive JPath where
  | here
  | field (k : String) (p : JPath)
  | elem (p : JPath)

/-- Whether a JSON value contains the given path: every named field on the path
exists (with array steps satisfied by some element). This is the sense in which
one response "has every field name and nested shape" of another. -/
def hasPath : Json → JPath → Bool
  | _, .here => true
  | .obj fields, .field k p => fields.any (fun kv => kv.1 = k && hasPath kv.2 p)
  | _, .field _ _ => false
  | .arr items, .elem p => items.any (fun j => hasPath j p)
  | _, .elem _ => false

/-- A chat message, as sent to the OpenAI chat-completions API. -/
structure ChatMsg where
  role : String
  content : String
deriving DecidableEq, Repr

/-- One call to an external Azure service, as recorded in a handler trace. -/
inductive ExtCall where
  | visionAnalyze (features : String) (language : String) (imageBytes : List Nat)
  | blobUpload (imageBytes : List Nat) (originalName : String)
  | translatorTranslate (text : String) (target : String) (source : Option String)
  | translatorLanguages
  | openaiChat (messages : List ChatMsg)
deriving DecidableEq, Repr

/-! ### Base64 decoding (`Buffer.from(s, 'base64')`)

Node ignores characters outside the base64 alphabet; the handler only uses the
decoded buffer's bytes and length. -/

/-- The 6-bit value of a base64 alphabet character. -/
def b64val (c : Char) : Option Nat :=
  if 65 ≤ c.toNat ∧ c.toNat ≤ 90 then some (c.toNat - 65)
  else if 97 ≤ c.toNat ∧ c.toNat ≤ 122 then some (c.toNat - 97 + 26)
  else if 48 ≤ c.toNat ∧ c.toNat ≤ 57 then some (c.toNat - 48 + 52)
  else if c = '+' then some 62
  else if c = '/' then some 63
  else none

/-- Turn a list of 6-bit values into bytes (4 values give 3 bytes; a trailing
2 or 3 values give 1 or 2 bytes). -/
def b64groups : List Nat → List Nat
  | a :: b :: c :: d :: rest =>
      (a * 4 + b / 16) % 256 :: ((b % 16) * 16 + c / 4) % 256 ::
        ((c % 4) * 64 + d) % 256 :: b64groups rest
  | [a, b, c] => [(a * 4 + b / 16) % 256, ((b % 16) * 16 + c / 4) % 256]
  | [a, b] => [(a * 4 + b / 16) % 256]
  | _ => []

/-- Decode a base64 string to bytes, ignoring non-alphabet characters. -/
def b64decode (s : String) : List Nat :=
  b64groups (s.data.filterMap b64val)

/-! ### The global error handler (`middleware/errorHandler.js`) -/

/-- A JavaScript `err.code` value: the codebase compares it both with the number
`11000` and with strings. -/
inductive JsCode where
  | num (n : Nat)
  | str (s : String)
deriving DecidableEq, Repr

/-- An error object as inspected by `errorHandler`: only its `name`, `code` and
`type` properties are ever read to pick a status. -/
structure JsError where
  name : Option String
  code : Option JsCode
  type : Option String
deriving DecidableEq, Repr

/-- JavaScript truthiness of `err.code` (`if (err.code)`). -/
def codeTruthy : Option JsCode → Bool
  | none => false
  | some (.num n) => n ≠ 0
  | some (.str s) => s ≠ ""

/-- `errorHandler` from `middleware/errorHandler.js`: returns the response status
and the `error` message field. The three stages mirror the source: the
name/code/type chain, the Azure `switch (err.code)`, then the network check. -/
def errorHandler (err : JsError) : Nat × String :=
  let e : Nat × String :=
    if err.name = some "ValidationError" then (400, "Validation error")
    else if err.name = some "CastError" then (400, "Invalid ID format")
    else if err.code = some (.num 11000) then (409, "Duplicate field value")
    else if err.name = some "JsonWebTokenError" then (401, "Invalid token")
    else if err.name = some "TokenExpiredError" then (401, "Token expired")
    else if err.type = some "entity.parse.failed" then (400, "Invalid JSON payload")
    else if err.type = some "entity.too.large" then (413, "Payload too large")
    else if err.code = some (.str "LIMIT_FILE_SIZE") then (413, "File too large")
    else if err.code = some (.str "LIMIT_UNEXPECTED_FILE") then (400, "Unexpected file field")
    else (500, "Internal server error")
  let e2 : Nat × String :=
    if codeTruthy err.code then
      if err.code = some (.str "Unauthorized") then (401, "Azure service authentication failed")
      else if err.code = some (.str "Forbidden") then (403, "Azure service access denied")
      else if err.code = some (.str "NotFound") then (404, "Azure resource not found")
      else if err.code = some (.str "TooManyRequests") then (429, "Azure service rate limit exceeded")
      else if err.code = some (.str "ServiceUnavailable") then (503, "Azure service temporarily unavailable")
      else e
    else e
  if err.code = some (.str "ECONNREFUSED") ∨ err.code = some (.str "ETIMEDOUT") then
    (503, "Service temporarily unavailable")
  else e2

/-- Error names the handler recognises in its first chain. -/
def recognizedErrorNames : List String :=
  ["ValidationError", "CastError", "JsonWebTokenError", "TokenExpiredError"]

/-- Error codes the handler recognises (numeric Mongo code, multer codes, Azure
codes and network codes). -/
def recognizedErrorCodes : List JsCode :=
  [.num 11000, .str "LIMIT_FILE_SIZE", .str "LIMIT_UNEXPECTED_FILE",
   .str "Unauthorized", .str "Forbidden", .str "NotFound",
   .str "TooManyRequests", .str "ServiceUnavailable",
   .str "ECONNREFUSED", .str "ETIMEDOUT"]

/-- Error types the handler recognises (body-parser types). -/
def recognizedErrorTypes : List String :=
  ["entity.parse.failed", "entity.too.large"]

/-- An error matching none of the recognised names, codes or types. -/
def unrecognizedError (err : JsError) : Bool :=
  (match err.name with
   | some n => ¬ recognizedErrorNames.contains n
   | none => true) &&
  (match err.code with
   | some c => ¬ recognizedErrorCodes.contains c
   | none => true) &&
  (match err.type with
   | some t => ¬ recognizedErrorTypes.contains t
   | none => true)

/-! ### Small JavaScript string helpers -/

/-- Helper for `splitOnComma`: accumulate the current piece (reversed). -/
def splitOnCommaAux : List Char → List Char → List String
  | [], acc => [String.mk acc.reverse]
  | c :: rest, acc =>
      if c = ',' then String.mk acc.reverse :: splitOnCommaAux rest []
      else splitOnCommaAux rest (c :: acc)

/-- JavaScript `s.split(',')`: splits on every comma; the empty string gives
`[""]`. -/
def splitOnComma (s : String) : List String :=
  splitOnCommaAux s.data []

/-- Whitespace as removed by JavaScript `trim()`. -/
def isWsp (c : Char) : Bool :=
  c = ' ' ∨ c = '\t' ∨ c = '\n' ∨ c = '\r'

/-- JavaScript `s.trim()`. -/
def jsTrim (s : String) : String :=
  String.mk (((s.data.dropWhile isWsp).reverse.dropWhile isWsp).reverse)

/-! ### Request validation middleware (`middleware/validation.js`) -/

/-- The visual features accepted by `validateImageAnalysisRequest`. -/
def validVisionFeatures : List String :=
  ["Caption", "DenseCaptions", "Objects", "People", "Read", "SmartCrops", "Tags"]

/-- The languages accepted by the image-analysis Joi schema. -/
def validVisionLanguages : List String :=
  ["en", "es", "fr", "de", "it", "pt", "ru", "ja", "ko", "zh"]

/-- The mime types accepted for uploaded image files. -/
def allowedUploadTypes : List String :=
  ["image/jpeg", "image/png", "image/gif", "image/bmp", "image/webp"]

/-- The body of a request to `POST /api/vision/analyze`: the base64 `image`
payload (JSON format), the comma-separated `features` string and the `language`
(each absent when the client did not send it). -/
structure VisionBody where
  image : Option String
  features : Option String
  language : Option String
deriving DecidableEq, Repr

/-- A file parsed by multer from a multipart upload. -/
structure UploadedFile where
  buffer : List Nat
  mimetype : String
  size : Nat
  originalname : String
deriving DecidableEq, Repr

/-- `validateImageAnalysisRequest` from `middleware/validation.js`: returns the
(status, error) pair of the rejection response, or `none` when the request
passes. The Joi schema allows only `features`, `language` and
`genderNeutralCaption` keys, so a body carrying the base64 `image` key is
rejected as an unknown key. -/
def validateImageAnalysisRequest (body : VisionBody) (file : Option UploadedFile) :
    Option (Nat × String) :=
  if body.image.isSome then some (400, "Validation failed")
  else if (match body.features with
           | some v => ((splitOnComma v).map jsTrim).any
               (fun f => !validVisionFeatures.contains f)
           | none => false) then some (400, "Validation failed")
  else if (match body.language with
           | some l => !validVisionLanguages.contains l
           | none => false) then some (400, "Validation failed")
  else
    match file with
    | some f =>
        if f.size > 10 * 1024 * 1024 then some (400, "File too large")
        else if ¬ allowedUploadTypes.contains f.mimetype then some (400, "Invalid file type")
        else none
    | none => none

/-- The 16 target-language codes accepted by `validateTranslationRequest`. -/
def supportedTargetLanguages : List String :=
  ["ar", "zh", "zh-Hant", "en", "fr", "de", "hi", "it",
   "ja", "ko", "pt", "ru", "es", "th", "tr", "vi"]

/-- The source-language codes accepted by `validateTranslationRequest`
(`auto` plus the 16 target codes). -/
def supportedSourceLanguages : List String := "auto" :: supportedTargetLanguages

/-- The body of a request to `POST /api/translation/translate`. -/
structure TranslateBody where
  text : Option String
  targetLanguage : Option String
  sourceLanguage : Option String
deriving DecidableEq, Repr

/-- Whether a body passes the Joi schema of `validateTranslationRequest`:
`text` required with length 1..10000, `targetLanguage` required and among the
16 supported codes, `sourceLanguage` optional and among `auto` plus those codes. -/
def translationBodyValid (b : TranslateBody) : Bool :=
  (match b.text with
   | some t => 1 ≤ t.length && t.length ≤ 10000
   | none => false) &&
  (match b.targetLanguage with
   | some l => supportedTargetLanguages.contains l
   | none => false) &&
  (match b.sourceLanguage with
   | some l => supportedSourceLanguages.contains l
   | none => true)

/-! ### The translation routes (`routes/translation.js`) -/

/-- Shared backend configuration: which Azure clients were initialised
(`config/azure.js`), the timestamp used for responses and the Translator
default target language from `azureConfig`. -/
structure AppCfg where
  visionConfigured : Bool
  translatorConfigured : Bool
  openaiConfigured : Bool
  now : String
  defaultTargetLanguage : String

/-- One element of the Translator `/translate` response body. -/
structure TransApiItem where
  translations : List String
  detectedLanguage : Option (String × JsNum)
deriving Repr

/-- Outcome of a translation endpoint: the response status, its `error` field
(absent on success) and the translated text (present on success). -/
structure TranslateOutcome where
  status : Nat
  errorLabel : Option String
  translatedText : Option String
deriving DecidableEq, Repr

/-- The `POST /api/translation/translate` chain: `validateTranslationRequest`
followed by the route handler, with the Translator call given by `oracle` and
recorded in the returned trace. -/
def translateRoute (cfg : AppCfg)
    (oracle : String → String → Option String → Except JsError (List TransApiItem))
    (b : TranslateBody) : TranslateOutcome × List ExtCall :=
  if ¬ translationBodyValid b then
    ({ status := 400, errorLabel := some "Validation failed", translatedText := none }, [])
  else
    -- handler body (`routes/translation.js`, lines 11-100)
    let textTruthy := match b.text with | some t => t ≠ "" | none => false
    let targetTruthy := match b.targetLanguage with | some l => l ≠ "" | none => false
    if ¬ (textTruthy && targetTruthy) then
      ({ status := 400, errorLabel := some "Missing required parameters", translatedText := none }, [])
    else if ¬ cfg.translatorConfigured then
      ({ status := 503, errorLabel := some "Translation service unavailable", translatedText := none }, [])
    else
      let t := b.text.getD ""
      let target := b.targetLanguage.getD ""
      let source : Option String :=
        match b.sourceLanguage with
        | some s => if s ≠ "" && s ≠ "auto" then some s else none
        | none => none
      match oracle t target source with
      | .error _ =>
          ({ status := 500, errorLabel := some "Translation failed", translatedText := none },
           [.translatorTranslate t target source])
      | .ok items =>
          match items with
          | [] =>
              -- `No translation result received` is thrown and caught
              ({ status := 500, errorLabel := some "Translation failed", translatedText := none },
               [.translatorTranslate t target source])
          | item :: _ =>
              let translated := (item.translations.headD "Translation not available")
              ({ status := 200, errorLabel := none, translatedText := some translated },
               [.translatorTranslate t target source])

/-- The hard-coded language map returned by the first `GET /languages` handler. -/
def hardCodedLanguages : List (String × String) :=
  [("ar", "Arabic"), ("zh", "Chinese (Simplified)"), ("zh-Hant", "Chinese (Traditional)"),
   ("en", "English"), ("fr", "French"), ("de", "German"), ("hi", "Hindi"),
   ("it", "Italian"), ("ja", "Japanese"), ("ko", "Korean"), ("pt", "Portuguese"),
   ("ru", "Russian"), ("es", "Spanish"), ("th", "Thai"), ("tr", "Turkish"),
   ("vi", "Vietnamese")]

/-- Outcome of a `GET /api/translation/languages` handler. -/
structure LanguagesOutcome where
  status : Nat
  errorLabel : Option String
  supportedLanguages : Option (List (String × String))
  autoDetectionSupported : Option Bool
  defaultTargetLanguage : Option String
  serviceLanguages : Option (List String)
deriving DecidableEq, Repr

/-- The first `GET /languages` handler (`routes/translation.js`, lines 169-194):
pure, returns the hard-coded 16-language map. -/
def languagesHandlerFirst (cfg : AppCfg)
    (_oracle : Unit → Except JsError (List String)) : LanguagesOutcome × List ExtCall :=
  ({ status := 200, errorLabel := none,
     supportedLanguages := some hardCodedLanguages,
     autoDetectionSupported := some true,
     defaultTargetLanguage := some cfg.defaultTargetLanguage,
     serviceLanguages := none }, [])

/-- The second `GET /languages` handler (`routes/translation.js`, lines 315-342):
queries the Translator `/languages` endpoint. -/
def languagesHandlerSecond (cfg : AppCfg)
    (oracle : Unit → Except JsError (List String)) : LanguagesOutcome × List ExtCall :=
  if ¬ cfg.translatorConfigured then
    ({ status := 503, errorLabel := some "Translation service unavailable",
       supportedLanguages := none, autoDetectionSupported := none,
       defaultTargetLanguage := none, serviceLanguages := none }, [])
  else
    match oracle () with
    | .ok langs =>
        ({ status := 200, errorLabel := none, supportedLanguages := none,
           autoDetectionSupported := none, defaultTargetLanguage := none,
           serviceLanguages := some langs }, [.translatorLanguages])
    | .error _ =>
        ({ status := 500, errorLabel := some "Failed to get languages",
           supportedLanguages := none, autoDetectionSupported := none,
           defaultTargetLanguage := none, serviceLanguages := none }, [.translatorLanguages])

/-- The GET routes of the translation router, in registration order. The file
registers the path `/languages` twice. -/
def translationGetRoutes :
    List (String × (AppCfg → (Unit → Except JsError (List String)) →
      LanguagesOutcome × List ExtCall)) :=
  [("/languages", languagesHandlerFirst), ("/languages", languagesHandlerSecond)]

/-- Express dispatch for a GET request on the translation router: handlers run
in registration order, and each of the two `/languages` handlers always responds
without calling `next()`, so the first registered match handles the request. -/
def dispatchTranslationGet (path : String) (cfg : AppCfg)
    (oracle : Unit → Except JsError (List String)) :
    Option (LanguagesOutcome × List ExtCall) :=
  (translationGetRoutes.find? (fun rt => rt.1 = path)).map (fun rt => rt.2 cfg oracle)

/-! ### The classic analysis response (`routes/vision.js`, lines 128-174) -/

/-- A bounding box from the Vision v4.0 API. -/
structure BBox where
  x : JsNum
  y : JsNum
  w : JsNum
  h : JsNum
deriving DecidableEq, Repr

/-- `captionResult` of the Vision v4.0 API. -/
structure V4Caption where
  text : String
  confidence : JsNum
deriving Repr

/-- A dense caption value of the Vision v4.0 API. -/
structure V4DenseCaption where
  text : String
  confidence : JsNum
  boundingBox : BBox
deriving Repr

/-- A tag value (also the tag entries of a detected object) of the v4.0 API. -/
structure V4Tag where
  name : String
  confidence : JsNum
deriving Repr

/-- A detected object of the v4.0 API: the route reads `tags[0].name` falling
back to `name`, and likewise for the confidence. -/
structure V4Object where
  tags : List V4Tag
  name : Option String
  confidence : Option JsNum
  boundingBox : BBox
deriving Repr

/-- A detected person of the v4.0 API. -/
structure V4Person where
  confidence : JsNum
  boundingBox : BBox
deriving Repr

/-- A smart-crop value of the v4.0 API. -/
structure V4SmartCrop where
  aspectRatio : JsNum
  boundingBox : BBox
deriving Repr

/-- A line of the v4.0 `readResult`. -/
structure V4Line where
  text : String
deriving Repr

/-- A block of the v4.0 `readResult`. -/
structure V4Block where
  lines : List V4Line
deriving Repr

/-- The Vision v4.0 API response body, with each `*Result` section optional. -/
structure V4Result where
  captionResult : Option V4Caption
  denseCaptionsResult : Option (List V4DenseCaption)
  objectsResult : Option (List V4Object)
  peopleResult : Option (List V4Person)
  tagsResult : Option (List V4Tag)
  smartCropsResult : Option (List V4SmartCrop)
  readResult : Option (List V4Block)
deriving Repr

/-- JSON of a bounding box, carried through unchanged. -/
def bboxJson (b : BBox) : Json :=
  .obj [("x", .num b.x), ("y", .num b.y), ("w", .num b.w), ("h", .num b.h)]

/-- JavaScript `a || b` where `a` is a possibly-missing string: a present
non-empty string wins, otherwise the fallback JSON value. -/
def strOrElse (a : Option String) (fallback : Json) : Json :=
  match a with
  | some s => if s ≠ "" then .str s else fallback
  | none => fallback

/-- JavaScript `a || b` where `a` is a possibly-missing number: a present
non-zero number wins, otherwise the fallback JSON value. -/
def numOrElse (a : Option JsNum) (fallback : Json) : Json :=
  match a with
  | some q => if q.mantissa ≠ 0 then .num q else fallback
  | none => fallback

/-- The name field of a classic objects entry:
`obj.tags?.[0]?.name || obj.name` (an absent fallback is `undefined`). -/
def classicObjectName (o : V4Object) : Json :=
  strOrElse (o.tags.head?.map V4Tag.name)
    (match o.name with | some n => .str n | none => .undefined)

/-- The confidence field of a classic objects entry:
`obj.tags?.[0]?.confidence || obj.confidence`. -/
def classicObjectConfidence (o : V4Object) : Json :=
  numOrElse (o.tags.head?.map V4Tag.confidence)
    (match o.confidence with | some q => .num q | none => .undefined)

/-- The `analysisResponse` built by `POST /api/vision/analyze`
(`routes/vision.js`, lines 128-174), with every field in source order. -/
def classicAnalysisResponse (imageUrl : Option String) (timestamp : String)
    (r : V4Result) : Json :=
  .obj [
    ("success", .bool true),
    ("timestamp", .str timestamp),
    ("imageUrl", match imageUrl with | some u => .str u | none => .null),
    ("analysis", .obj [
      ("caption", strOrElse (r.captionResult.map V4Caption.text) .null),
      ("confidence", numOrElse (r.captionResult.map V4Caption.confidence) .null),
      ("denseCaptions", .arr ((r.denseCaptionsResult.getD []).map (fun cap =>
        .obj [("text", .str cap.text), ("confidence", .num cap.confidence),
              ("boundingBox", bboxJson cap.boundingBox)]))),
      ("objects", .arr ((r.objectsResult.getD []).map (fun o =>
        .obj [("name", classicObjectName o),
              ("confidence", classicObjectConfidence o),
              ("boundingBox", bboxJson o.boundingBox)]))),
      ("people", .arr ((r.peopleResult.getD []).map (fun p =>
        .obj [("confidence", .num p.confidence),
              ("boundingBox", bboxJson p.boundingBox)]))),
      ("tags", .arr ((r.tagsResult.getD []).map (fun t =>
        .obj [("name", .str t.name), ("confidence", .num t.confidence)]))),
      ("smartCrops", .arr ((r.smartCropsResult.getD []).map (fun c =>
        .obj [("aspectRatio", .num c.aspectRatio),
              ("boundingBox", bboxJson c.boundingBox)]))),
      ("text",
        match r.readResult with
        | none => .null
        | some blocks =>
            let joined := "\n".intercalate
              (blocks.flatMap (fun b => b.lines.map V4Line.text))
            if joined ≠ "" then .str joined else .null)
    ])
  ]

/-! ### The enhanced GPT-4o result (`services/enhancedVisionService.js`, lines 88-124) -/

/-- The parsed free-form JSON answer of the model: the prompt asks for these
fields, but each may be missing from the model answer. -/
structure GPTAnalysis where
  mainDescription : String
  objects : Option (List String)
  sceneContext : Option String
  activities : Option (List String)
  moodAtmosphere : Option String
  textContent : Option String
  colorsComposition : Option String
  interestingDetails : Option (List String)
  confidence : Option JsNum
deriving Repr

/-- The raw parsed model answer, kept verbatim under the `analysis` field. -/
def gptAnalysisJson (a : GPTAnalysis) : Json :=
  .obj ([("mainDescription", .str a.mainDescription)] ++
    (match a.objects with
     | some l => [("objects", Json.arr (l.map Json.str))] | none => []) ++
    (match a.sceneContext with
     | some s => [("sceneContext", Json.str s)] | none => []) ++
    (match a.activities with
     | some l => [("activities", Json.arr (l.map Json.str))] | none => []) ++
    (match a.moodAtmosphere with
     | some s => [("moodAtmosphere", Json.str s)] | none => []) ++
    (match a.textContent with
     | some s => [("textContent", Json.str s)] | none => []) ++
    (match a.colorsComposition with
     | some s => [("colorsComposition", Json.str s)] | none => []) ++
    (match a.interestingDetails with
     | some l => [("interestingDetails", Json.arr (l.map Json.str))] | none => []) ++
    (match a.confidence with
     | some q => [("confidence", Json.num q)] | none => []))

/-- A possibly-missing string carried through directly (an absent value is the
JavaScript `undefined`). -/
def strOrUndef : Option String → Json
  | some s => .str s
  | none => .undefined

/-- `analysisResult.confidence || 0.9`. -/
def gptConfidence (a : GPTAnalysis) : Json :=
  numOrElse a.confidence (.num ⟨9, 1⟩)

/-- The value returned by `analyzeImageWithGPT4o`
(`services/enhancedVisionService.js`, lines 89-124), in source field order. -/
def enhancedServiceResult (a : GPTAnalysis) (usage : Json) : Json :=
  .obj [
    ("enhanced", .bool true),
    ("model", .str "gpt-4o"),
    ("analysis", gptAnalysisJson a),
    ("caption", .obj [
      ("text", .str a.mainDescription),
      ("confidence", gptConfidence a)]),
    ("description", .obj [
      ("captions", .arr [.obj [
        ("text", .str a.mainDescription),
        ("confidence", gptConfidence a)]])]),
    ("objects", .arr ((a.objects.getD []).map (fun o =>
      .obj [("object", .str o), ("confidence", .num ⟨85, 2⟩),
            ("rectangle", .obj [("x", .num ⟨0, 0⟩), ("y", .num ⟨0, 0⟩),
                                ("w", .num ⟨100, 0⟩), ("h", .num ⟨100, 0⟩)])]))),
    ("tags", .arr (
      ((a.objects.getD []).map (fun o =>
        Json.obj [("name", .str o), ("confidence", .num ⟨85, 2⟩)])) ++
      ((a.activities.getD []).map (fun act =>
        Json.obj [("name", .str act), ("confidence", .num ⟨8, 1⟩)])))),
    ("text",
      match a.textContent with
      | some t => if t ≠ "" then .arr [.str t] else .arr []
      | none => .arr []),
    ("color", .obj [
      ("dominantColors",
        match a.colorsComposition with
        | some c => .arr (((splitOnComma c).map (fun s => Json.str (jsTrim s))).take 3)
        | none => .arr [])]),
    ("sceneContext", strOrUndef a.sceneContext),
    ("activities", .arr ((a.activities.getD []).map Json.str)),
    ("moodAtmosphere", strOrUndef a.moodAtmosphere),
    ("colorsComposition", strOrUndef a.colorsComposition),
    ("interestingDetails", .arr ((a.interestingDetails.getD []).map Json.str)),
    ("usage", usage)
  ]

/-! ### The `POST /api/vision/analyze` endpoint
(`index.js` wiring plus `routes/vision.js`, lines 14-203) -/

/-- A request reaching the vision router: whether the content type is
multipart, the multer-parsed file (multipart only) and the parsed body. -/
structure VisionRequest where
  contentTypeMultipart : Bool
  file : Option UploadedFile
  body : VisionBody
deriving Repr

/-- Result of the multer stage: either the (possibly absent) parsed file, or an
error passed to the global error handler. -/
inductive MulterOutcome where
  | ok (file : Option UploadedFile)
  | err (e : JsError)
deriving Repr

/-- `conditionalUpload` (`index.js`, lines 95-102) composed with the configured
multer instance (lines 69-83): JSON requests skip multer; multipart uploads are
rejected when the mime type is not `image/*` (the `fileFilter` error has no
`code`) or the file exceeds the 10MB `fileSize` limit (`LIMIT_FILE_SIZE`). -/
def conditionalUpload (req : VisionRequest) : MulterOutcome :=
  if req.contentTypeMultipart then
    match req.file with
    | some f =>
        if ¬ f.mimetype.startsWith "image/" then
          .err { name := some "Error", code := none, type := none }
        else if f.size > 10 * 1024 * 1024 then
          .err { name := some "MulterError", code := some (.str "LIMIT_FILE_SIZE"), type := none }
        else .ok (some f)
    | none => .ok none
  else .ok none

/-- An axios error: `error.response` carries the upstream HTTP status when the
service answered, and is absent on network errors. -/
structure AxiosError where
  responseStatus : Option Nat
deriving Repr

/-- Outcome of the analyze endpoint: the status, the `error` label of an error
response, and the JSON body of a success response. -/
structure AnalyzeOutcome where
  status : Nat
  errorLabel : Option String
  responseBody : Option Json

/-- The default features when the request names none. -/
def defaultFeatures : List String := ["Caption", "Objects", "Tags", "People"]

/-- The `features` list of the analyze handler:
`req.body.features ? req.body.features.split(',') : [...]` (an empty string is
falsy). -/
def requestedFeatures (features : Option String) : List String :=
  match features with
  | some s => if s ≠ "" then splitOnComma s else defaultFeatures
  | none => defaultFeatures

/-- The `language` of the analyze handler: `req.body.language || 'en'`. -/
def requestedLanguage (language : Option String) : String :=
  match language with
  | some l => if l ≠ "" then l else "en"
  | none => "en"

/-- The body of the `POST /api/vision/analyze` handler (`routes/vision.js`,
lines 14-203), after multer. The Vision REST call is `visionOracle`; the blob
upload is `blobOracle`; both are recorded in the trace when made. For a base64
request the blob-upload step reads `req.file.originalname`, which throws on the
missing `req.file`; the inner `catch` swallows it and `imageUrl` stays `null`. -/
def analyzeHandler (cfg : AppCfg)
    (visionOracle : String → String → List Nat → Except AxiosError V4Result)
    (blobOracle : List Nat → String → Except JsError String)
    (req : VisionRequest) : AnalyzeOutcome × List ExtCall :=
  let inputs : Option (List Nat × List String × String) :=
    match req.file with
    | some f =>
        some (f.buffer, requestedFeatures req.body.features,
              requestedLanguage req.body.language)
    | none =>
        match req.body.image with
        | some s =>
            some (b64decode s, requestedFeatures req.body.features,
                  requestedLanguage req.body.language)
        | none => none
  match inputs with
  | none =>
      ({ status := 400, errorLabel := some "No image data provided", responseBody := none }, [])
  | some (imageBuffer, features, language) =>
      if imageBuffer.length = 0 then
        ({ status := 400, errorLabel := some "Invalid image data", responseBody := none }, [])
      else if imageBuffer.length > 20 * 1024 * 1024 then
        ({ status := 400, errorLabel := some "Image too large", responseBody := none }, [])
      else if ¬ cfg.visionConfigured then
        ({ status := 503, errorLabel := some "Vision service unavailable", responseBody := none }, [])
      else
        let featureParams := ",".intercalate features
        match visionOracle featureParams language imageBuffer with
        | .error e =>
            (match e.responseStatus with
             | some st =>
                 { status := st, errorLabel := some "Analysis failed", responseBody := none }
             | none =>
                 { status := 500, errorLabel := some "Analysis failed", responseBody := none },
             [.visionAnalyze featureParams language imageBuffer])
        | .ok result =>
            match req.file with
            | none =>
                -- `req.file.originalname` throws; the exception is caught and
                -- `imageUrl` keeps its initial `null`; no blob call happens.
                ({ status := 200, errorLabel := none,
                   responseBody := some (classicAnalysisResponse none cfg.now result) },
                 [.visionAnalyze featureParams language imageBuffer])
            | some f =>
                match blobOracle imageBuffer f.originalname with
                | .ok url =>
                    ({ status := 200, errorLabel := none,
                       responseBody := some (classicAnalysisResponse (some url) cfg.now result) },
                     [.visionAnalyze featureParams language imageBuffer,
                      .blobUpload imageBuffer f.originalname])
                | .error _ =>
                    ({ status := 200, errorLabel := none,
                       responseBody := some (classicAnalysisResponse none cfg.now result) },
                     [.visionAnalyze featureParams language imageBuffer,
                      .blobUpload imageBuffer f.originalname])

/-- The full endpoint as wired in `index.js`, line 104:
`conditionalUpload` then the route handler. `validateImageAnalysisRequest` is
imported by `routes/vision.js` but never attached to this route. A multer error
goes to the global `errorHandler`. -/
def visionAnalyzeEndpoint (cfg : AppCfg)
    (visionOracle : String → String → List Nat → Except AxiosError V4Result)
    (blobOracle : List Nat → String → Except JsError String)
    (req : VisionRequest) : AnalyzeOutcome × List ExtCall :=
  match conditionalUpload req with
  | .err e =>
      let r := errorHandler e
      ({ status := r.1, errorLabel := some r.2, responseBody := none }, [])
  | .ok file =>
      analyzeHandler cfg visionOracle blobOracle { req with file := file }

/-! ### The chat routes (`routes/vision.js`, second file of the concatenation:
`POST /api/chat/analyze` and `POST /api/chat/suggestions`) -/

/-- A caption of the analysis results sent by the chat client. -/
structure CaptionInfo where
  text : String
  confidence : JsNum
deriving DecidableEq, Repr

/-- A rectangle of the legacy analysis format (`rectangle.x`, `rectangle.y`). -/
structure RectInfo where
  x : JsNum
  y : JsNum
  w : JsNum
  h : JsNum
deriving DecidableEq, Repr

/-- A detected object of the legacy format consumed by the chat routes
(`obj.object`, `obj.confidence`, `obj.rectangle`). -/
structure DetectedObject where
  object : String
  confidence : JsNum
  rectangle : RectInfo
deriving DecidableEq, Repr

/-- A detected person of the legacy format (`person.rectangle`). -/
structure DetectedPerson where
  rectangle : RectInfo
deriving DecidableEq, Repr

/-- A tag of the legacy format (`tag.name`, `tag.confidence`). -/
structure TagInfo where
  name : String
  confidence : JsNum
deriving DecidableEq, Repr

/-- The `color` section of the legacy format. -/
structure ColorInfo where
  dominantColorForeground : Option String
  dominantColorBackground : Option String
  dominantColors : Option (List String)
deriving DecidableEq, Repr

/-- The `description` section of the legacy format. -/
structure DescriptionInfo where
  captions : Option (List CaptionInfo)
deriving DecidableEq, Repr

/-- The `analysis` field of an enhanced result, as read by the chat routes. -/
structure EnhancedAnalysisInfo where
  mainDescription : Option String
  objects : Option (List String)
deriving DecidableEq, Repr

/-- The `analysisResults` object of a chat request body. Every field can be
absent; `enhanced` is its JavaScript truthiness. -/
structure AnalysisResults where
  caption : Option CaptionInfo
  description : Option DescriptionInfo
  objects : Option (List DetectedObject)
  people : Option (List DetectedPerson)
  tags : Option (List TagInfo)
  text : Option (List String)
  color : Option ColorInfo
  enhanced : Bool
  analysis : Option EnhancedAnalysisInfo
  sceneContext : Option String
  activities : Option (List String)
  moodAtmosphere : Option String
  colorsComposition : Option String
  interestingDetails : Option (List String)
deriving DecidableEq, Repr

/-- The caption section of `buildAnalysisContext` (guard: `results.caption`). -/
def captionPart (r : AnalysisResults) : String :=
  match r.caption with
  | some c =>
      "Image Description: " ++ c.text ++ " (confidence: " ++ jsNumRender c.confidence ++ ")\n\n"
  | none => ""

/-- The detailed-captions section (guard: `results.description?.captions`; an
empty captions array is truthy, so presence alone decides). -/
def descriptionPart (r : AnalysisResults) : String :=
  match r.description with
  | some d =>
      match d.captions with
      | some caps =>
          "Detailed Captions:\n" ++
          String.join (caps.map (fun cap =>
            "- " ++ cap.text ++ " (confidence: " ++ jsNumRender cap.confidence ++ ")\n")) ++
          "\n"
      | none => ""
  | none => ""

/-- The objects section (guard: `results.objects && results.objects.length > 0`). -/
def objectsPart (r : AnalysisResults) : String :=
  match r.objects with
  | some l =>
      if l.length > 0 then
        "Detected Objects:\n" ++
        String.join (l.map (fun o =>
          "- " ++ o.object ++ " at location (" ++ jsNumRender o.rectangle.x ++ ", " ++
          jsNumRender o.rectangle.y ++ ") with confidence " ++ jsNumRender o.confidence ++ "\n")) ++
        "\n"
      else ""
  | none => ""

/-- The people section (guard: `results.people && results.people.length > 0`). -/
def peoplePart (r : AnalysisResults) : String :=
  match r.people with
  | some l =>
      if l.length > 0 then
        "People Detected: " ++ toString l.length ++ " person(s)\n" ++
        String.join (l.enum.map (fun ip =>
          "- Person " ++ toString (ip.1 + 1) ++ " at location (" ++
          jsNumRender ip.2.rectangle.x ++ ", " ++ jsNumRender ip.2.rectangle.y ++ ")\n")) ++
        "\n"
      else ""
  | none => ""

/-- The tags section (guard: `results.tags && results.tags.length > 0`). -/
def tagsPart (r : AnalysisResults) : String :=
  match r.tags with
  | some l =>
      if l.length > 0 then
        "Tags: " ++
        ", ".intercalate (l.map (fun t =>
          t.name ++ " (" ++ jsNumRender t.confidence ++ ")")) ++ "\n\n"
      else ""
  | none => ""

/-- The OCR-text section (guard: `results.text && results.text.length > 0`). -/
def textPart (r : AnalysisResults) : String :=
  match r.text with
  | some l =>
      if l.length > 0 then
        "Text Found in Image:\n\"" ++ " ".intercalate l ++ "\"\n\n"
      else ""
  | none => ""

/-- The color section (guard: `results.color`; the inner lines are guarded by
the truthiness of each color field). -/
def colorPart (r : AnalysisResults) : String :=
  match r.color with
  | some col =>
      "Color Analysis:\n" ++
      (match col.dominantColorForeground with
       | some s => if s ≠ "" then "- Foreground: " ++ s ++ "\n" else ""
       | none => "") ++
      (match col.dominantColorBackground with
       | some s => if s ≠ "" then "- Background: " ++ s ++ "\n" else ""
       | none => "") ++
      (match col.dominantColors with
       | some cs => "- Dominant colors: " ++ ", ".intercalate cs ++ "\n"
       | none => "") ++
      "\n"
  | none => ""

/-- `buildAnalysisContext` (`routes/vision.js`, lines 590-650): the context
string is accumulated section by section in this fixed order. -/
def buildAnalysisContext (results : AnalysisResults) : String :=
  captionPart results ++ descriptionPart results ++ objectsPart results ++
  peoplePart results ++ tagsPart results ++ textPart results ++ colorPart results

/-- A template interpolation `${x}` of a possibly-missing string: JavaScript
prints `undefined` for a missing value. -/
def jsTemplateStr : Option String → String
  | some s => s
  | none => "undefined"

/-- `xs?.join(sep) || fallback`: a missing array or an empty join falls back. -/
def joinOrElse (l : Option (List String)) (sep fallback : String) : String :=
  match l with
  | some xs =>
      let j := sep.intercalate xs
      if j ≠ "" then j else fallback
  | none => fallback

/-- `buildEnhancedSystemPrompt` (`routes/vision.js`, lines 655-693). The caller
guarantees `analysisResults.analysis` is present. -/
def buildEnhancedSystemPrompt (r : AnalysisResults) : String :=
  let analysis := r.analysis.getD { mainDescription := none, objects := none }
  "You are an engaging, knowledgeable AI assistant helping users explore and understand their image. You have access to a comprehensive AI analysis of the image.\n\nðŸŽ¯ YOUR PERSONALITY:\n- Be conversational, enthusiastic, and insightful\n- Use descriptive, vivid language\n- Show curiosity and help users discover new details\n- Be like a knowledgeable friend sharing insights\n\nðŸ“¸ IMAGE ANALYSIS DETAILS:\nMain Description: " ++
  jsTemplateStr analysis.mainDescription ++
  "\nScene Context: " ++ jsTemplateStr r.sceneContext ++
  "\nMood/Atmosphere: " ++ jsTemplateStr r.moodAtmosphere ++
  "\nActivities: " ++ joinOrElse r.activities ", " "None specified" ++
  "\nKey Objects: " ++ joinOrElse analysis.objects ", " "None detected" ++
  "\nText Content: " ++ joinOrElse r.text " " "No text detected" ++
  "\nColors & Composition: " ++ jsTemplateStr r.colorsComposition ++
  "\nInteresting Details: " ++ joinOrElse r.interestingDetails ", " "None noted" ++
  "\n\nðŸŽ¨ YOUR CAPABILITIES:\n- Answer questions about what\x27s visible in the image\n- Explain the mood, atmosphere, and composition\n- Discuss the story or narrative the image tells\n- Help identify interesting details users might miss\n- Provide context about the setting and activities\n- Interpret the artistic or emotional elements\n\nðŸ’¬ CONVERSATION STYLE:\n- Be enthusiastic and descriptive\n- Use sensory language when appropriate\n- Ask follow-up questions to engage the user\n- Share insights that might surprise or delight\n- Reference specific details from the analysis\n- Be encouraging and positive\n\nAlways base responses on the analysis provided. If asked about something not in the analysis, creatively suggest what you can discuss instead."

/-- `buildStandardSystemPrompt` (`routes/vision.js`, lines 698-720). -/
def buildStandardSystemPrompt (analysisContext : String) : String :=
  "You are an AI assistant that helps users understand and explore their image analysis results. \n        \nYou have access to detailed analysis results from Azure Computer Vision API including:\n- Image descriptions and captions\n- Detected objects and their locations\n- People detection and analysis\n- Text recognition (OCR)\n- Tags and categories\n- Color analysis\n\nYour role is to:\n1. Answer questions about what\x27s in the image based on the analysis results\n2. Explain the AI analysis in simple, conversational terms\n3. Help users discover interesting details they might have missed\n4. Provide insights about composition, objects, text, or people in the image\n5. Be conversational and engaging while staying accurate to the analysis data\n\nAlways base your responses on the provided analysis results. If asked about something not in the analysis, politely explain what information is available.\n\nHere are the current image analysis results:\n" ++
  analysisContext

/-- `results.enhanced && results.analysis`. -/
def isEnhancedAnalysis (r : AnalysisResults) : Bool :=
  r.enhanced && r.analysis.isSome

/-- The messages array sent to OpenAI by `POST /api/chat/analyze`
(`routes/vision.js`, lines 477-501): the system prompt, the mapped history and
the current question. -/
def chatMessages (question : String) (r : AnalysisResults) (hist : List ChatMsg) :
    List ChatMsg :=
  { role := "system",
    content :=
      if isEnhancedAnalysis r then buildEnhancedSystemPrompt r
      else buildStandardSystemPrompt (buildAnalysisContext r) } ::
  (hist.map (fun m =>
    { role := if m.role = "user" then "user" else "assistant", content := m.content }) ++
   [{ role := "user", content := question }])

/-- The body of a `POST /api/chat/analyze` request. -/
structure ChatBody where
  question : Option String
  analysisResults : Option AnalysisResults
  conversationHistory : List ChatMsg
deriving Repr

/-- An error thrown by the OpenAI SDK, as inspected by the chat handler. -/
structure ChatApiError where
  code : Option String
deriving Repr

/-- Outcome of `POST /api/chat/analyze`. -/
structure ChatOutcome where
  status : Nat
  errorLabel : Option String
  answer : Option String
deriving DecidableEq, Repr

/-- The `POST /api/chat/analyze` handler (`routes/vision.js`, lines 450-553).
`state` is the (arbitrary) server-side state: the handler reads and writes no
variable outside its own scope, so it threads the state through unchanged.
The oracle returns `choices[0]?.message?.content`. -/
def chatAnalyzeHandler {S : Type} (state : S) (cfg : AppCfg)
    (oracle : List ChatMsg → Except ChatApiError (Option String))
    (b : ChatBody) : ChatOutcome × S × List ExtCall :=
  match b.question, b.analysisResults with
  | some q, some r =>
      if q = "" then
        ({ status := 400, errorLabel := some "Bad Request", answer := none }, state, [])
      else if ¬ cfg.openaiConfigured then
        ({ status := 503, errorLabel := some "Service Unavailable", answer := none }, state, [])
      else
        let messages := chatMessages q r b.conversationHistory
        match oracle messages with
        | .ok (some answer) =>
            if answer = "" then
              ({ status := 500, errorLabel := some "Internal Server Error", answer := none },
               state, [.openaiChat messages])
            else
              ({ status := 200, errorLabel := none, answer := some answer },
               state, [.openaiChat messages])
        | .ok none =>
            ({ status := 500, errorLabel := some "Internal Server Error", answer := none },
             state, [.openaiChat messages])
        | .error e =>
            if e.code = some "insufficient_quota" then
              ({ status := 429, errorLabel := some "Quota Exceeded", answer := none },
               state, [.openaiChat messages])
            else if e.code = some "content_filter" then
              ({ status := 400, errorLabel := some "Content Filtered", answer := none },
               state, [.openaiChat messages])
            else
              ({ status := 500, errorLabel := some "Internal Server Error", answer := none },
               state, [.openaiChat messages])
  | _, _ =>
      ({ status := 400, errorLabel := some "Bad Request", answer := none }, state, [])

/-- The standard suggestion list before truncation (`routes/vision.js`,
lines 733-767), in push order. -/
def standardSuggestionList (results : AnalysisResults) : List String :=
  ["What do you see in this image?", "Can you describe the main subject?"] ++
  (match results.objects with
   | some (o :: rest) =>
       ("Tell me more about the " ++ o.object ++ " in the image") ::
       (if rest.isEmpty then [] else ["What\x27s the relationship between the objects?"])
   | _ => []) ++
  (match results.people with
   | some (_ :: rest) =>
       "What can you tell me about the people in the image?" ::
       (if rest.isEmpty then [] else ["How many people are in the image and where are they?"])
   | _ => []) ++
  (match results.text with
   | some (_ :: _) =>
       ["What does the text in the image say?", "Can you explain the meaning of the text?"]
   | _ => []) ++
  ["What are the dominant colors?", "How would you describe the composition?"] ++
  ["What\x27s the setting or location?", "What might be happening in this scene?"]

/-- The enhanced suggestion list before truncation (`routes/vision.js`,
lines 774-814), in push order. The caller guarantees `results.analysis`. -/
def enhancedSuggestionList (results : AnalysisResults) (analysis : EnhancedAnalysisInfo) :
    List String :=
  (match analysis.mainDescription with
   | some s =>
       if s ≠ "" then
         ["What story does this image tell?", "What draws your attention most in this scene?"]
       else []
   | none => []) ++
  (match results.activities with
   | some (a :: _) =>
       [("Tell me more about the " ++ a ++ " happening here"),
        "What might happen next in this scene?"]
   | _ => []) ++
  (match results.moodAtmosphere with
   | some s =>
       if s ≠ "" then
         ["How does this image make you feel?", "What creates the mood in this image?"]
       else []
   | none => []) ++
  (match results.interestingDetails with
   | some (_ :: _) =>
       ["What\x27s the most interesting detail you notice?", "What details might I have missed?"]
   | _ => []) ++
  (match results.colorsComposition with
   | some s =>
       if s ≠ "" then
         ["What makes this image visually appealing?", "How do the colors work together?"]
       else []
   | none => []) ++
  (match results.sceneContext with
   | some s =>
       if s ≠ "" then
         ["What does the setting tell us about this moment?",
          "If you were there, what would you notice first?"]
       else []
   | none => [])

/-- `generateEnhancedSuggestions` (`routes/vision.js`, lines 774-815):
the pushed questions, then `slice(0, 6)`. -/
def generateEnhancedSuggestions (results : AnalysisResults)
    (analysis : EnhancedAnalysisInfo) : List String :=
  (enhancedSuggestionList results analysis).take 6

/-- `generateQuestionSuggestions` (`routes/vision.js`, lines 725-769): the
enhanced branch when `results.enhanced && results.analysis`, otherwise the
standard pushes followed by `slice(0, 6)`. -/
def generateQuestionSuggestions (results : AnalysisResults) : List String :=
  match results.analysis with
  | some a =>
      if results.enhanced then generateEnhancedSuggestions results a
      else (standardSuggestionList results).take 6
  | none => (standardSuggestionList results).take 6

/-- The body of a `POST /api/chat/suggestions` request. -/
structure SuggestionsBody where
  analysisResults : Option AnalysisResults
deriving Repr

/-- Outcome of `POST /api/chat/suggestions`. -/
structure SuggestionsOutcome where
  status : Nat
  errorLabel : Option String
  suggestions : Option (List String)
  timestamp : Option String
deriving DecidableEq, Repr

/-- The `POST /api/chat/suggestions` handler (`routes/vision.js`,
lines 559-585): local suggestion generation, no external call; the arbitrary
server state is threaded through unchanged. -/
def suggestionsHandler {S : Type} (state : S) (now : String) (b : SuggestionsBody) :
    SuggestionsOutcome × S × List ExtCall :=
  match b.analysisResults with
  | none =>
      ({ status := 400, errorLabel := some "Bad Request",
         suggestions := none, timestamp := none }, state, [])
  | some r =>
      ({ status := 200, errorLabel := none,
         suggestions := some (generateQuestionSuggestions r),
         timestamp := some now }, state, [])

/-! ## Theorems -/

/-- The bad-request condition of claim C3: `text` missing, empty or longer
than 10000 characters, or `targetLanguage` not among the 16 supported codes. -/
def translateClaimBad (b : TranslateBody) : Prop :=
  (match b.text with
   | none => True
   | some t => t.length = 0 ∨ t.length > 10000) ∨
  (match b.targetLanguage with
   | none => True
   | some l => l ∉ supportedTargetLanguages)

/-- C3: `POST /api/translation/translate` responds 400 with error
`Validation failed` and makes no Translator call whenever the body's `text` is
missing, empty or longer than 10000 characters, or its `targetLanguage` is not
one of the 16 supported codes. -/
theorem translate_validation_rejects (cfg : AppCfg)
    (oracle : String → String → Option String → Except JsError (List TransApiItem))
    (b : TranslateBody) (h : translateClaimBad b) :
    translateRoute cfg oracle b =
      ({ status := 400, errorLabel := some "Validation failed", translatedText := none }, []) := by
  have hv : translationBodyValid b = false := by
    rcases b with ⟨text, target, source⟩
    simp only [translateClaimBad] at h
    simp only [translationBodyValid]
    cases text with
    | none => simp
    | some t =>
        cases target with
        | none => simp
        | some l =>
            rcases h with h | h
            · rcases h with h | h
              · simp [h]
              · simp only [Bool.and_eq_false_iff]
                left
                simp
                omega
            · have h2 : l ∉ supportedTargetLanguages := by simpa using h
              simp [h2]
  simp [translateRoute, hv]

/-- Witness for C3 at a concrete invalid body (text present, target invalid). -/
theorem translate_validation_rejects_witness :
    translateClaimBad { text := some "hello", targetLanguage := some "xx", sourceLanguage := none } ∧
    translateRoute { visionConfigured := true, translatorConfigured := true,
                     openaiConfigured := true, now := "t", defaultTargetLanguage := "en" }
        (fun _ _ _ => .error { name := none, code := none, type := none })
        { text := some "hello", targetLanguage := some "xx", sourceLanguage := none } =
      ({ status := 400, errorLabel := some "Validation failed", translatedText := none }, []) :=
  ⟨Or.inr (by decide), translate_validation_rejects _ _ _ (Or.inr (by decide))⟩

/-- C7: the global error handler maps the Azure error codes `Unauthorized`,
`Forbidden`, `NotFound`, `TooManyRequests` and `ServiceUnavailable` to the
statuses 401, 403, 404, 429 and 503, and any error matching none of the
recognised names, codes or types to status 500 with message
`Internal server error`. -/
theorem errorHandler_status_map (e : JsError) :
    (e.code = some (.str "Unauthorized") →
      errorHandler e = (401, "Azure service authentication failed")) ∧
    (e.code = some (.str "Forbidden") →
      errorHandler e = (403, "Azure service access denied")) ∧
    (e.code = some (.str "NotFound") →
      errorHandler e = (404, "Azure resource not found")) ∧
    (e.code = some (.str "TooManyRequests") →
      errorHandler e = (429, "Azure service rate limit exceeded")) ∧
    (e.code = some (.str "ServiceUnavailable") →
      errorHandler e = (503, "Azure service temporarily unavailable")) ∧
    (unrecognizedError e = true →
      errorHandler e = (500, "Internal server error")) := by
  refine ⟨?_, ?_, ?_, ?_, ?_, ?_⟩ <;> intro h
  · simp [errorHandler, codeTruthy, h]
  · simp [errorHandler, codeTruthy, h]
  · simp [errorHandler, codeTruthy, h]
  · simp [errorHandler, codeTruthy, h]
  · simp [errorHandler, codeTruthy, h]
  · rcases e with ⟨name, code, type⟩
    simp only [unrecognizedError, Bool.and_eq_true, decide_eq_true_eq] at h
    obtain ⟨⟨h1, h2⟩, h3⟩ := h
    cases name with
    | none =>
        cases type with
        | none =>
            cases code with
            | none => simp [errorHandler, codeTruthy]
            | some c =>
                simp [recognizedErrorCodes] at h2
                simp [errorHandler, codeTruthy, h2]
        | some t =>
            simp [recognizedErrorTypes] at h3
            cases code with
            | none => simp [errorHandler, codeTruthy, h3]
            | some c =>
                simp [recognizedErrorCodes] at h2
                simp [errorHandler, codeTruthy, h2, h3]
    | some n =>
        simp [recognizedErrorNames] at h1
        cases type with
        | none =>
            cases code with
            | none => simp [errorHandler, codeTruthy, h1]
            | some c =>
                simp [recognizedErrorCodes] at h2
                simp [errorHandler, codeTruthy, h1, h2]
        | some t =>
            simp [recognizedErrorTypes] at h3
            cases code with
            | none => simp [errorHandler, codeTruthy, h1, h3]
            | some c =>
                simp [recognizedErrorCodes] at h2
                simp [errorHandler, codeTruthy, h1, h2, h3]

/-- Witness for C7: each mapped code at a concrete error, and a concrete
unrecognised error. -/
theorem errorHandler_status_map_witness :
    errorHandler ⟨none, some (.str "Unauthorized"), none⟩ =
      (401, "Azure service authentication failed") ∧
    errorHandler ⟨none, some (.str "Forbidden"), none⟩ =
      (403, "Azure service access denied") ∧
    errorHandler ⟨none, some (.str "NotFound"), none⟩ =
      (404, "Azure resource not found") ∧
    errorHandler ⟨none, some (.str "TooManyRequests"), none⟩ =
      (429, "Azure service rate limit exceeded") ∧
    errorHandler ⟨none, some (.str "ServiceUnavailable"), none⟩ =
      (503, "Azure service temporarily unavailable") ∧
    (unrecognizedError ⟨some "TypeError", some (.str "EWEIRD"), none⟩ = true ∧
     errorHandler ⟨some "TypeError", some (.str "EWEIRD"), none⟩ =
       (500, "Internal server error")) :=
  ⟨(errorHandler_status_map _).1 rfl,
   (errorHandler_status_map _).2.1 rfl,
   (errorHandler_status_map _).2.2.1 rfl,
   (errorHandler_status_map _).2.2.2.1 rfl,
   (errorHandler_status_map _).2.2.2.2.1 rfl,
   by decide,
   (errorHandler_status_map _).2.2.2.2.2 (by decide)⟩

/-- C10: `GET /api/translation/languages` is handled by the first registered
handler — the hard-coded 16-language map with `autoDetectionSupported: true`
and no Translator call — although the router registers the path twice; the
second (service-querying) handler is shadowed. -/
theorem languages_route_shadowed (cfg : AppCfg)
    (oracle : Unit → Except JsError (List String)) :
    dispatchTranslationGet "/languages" cfg oracle =
      some ({ status := 200, errorLabel := none,
              supportedLanguages := some hardCodedLanguages,
              autoDetectionSupported := some true,
              defaultTargetLanguage := some cfg.defaultTargetLanguage,
              serviceLanguages := none }, []) ∧
    translationGetRoutes.map Prod.fst = ["/languages", "/languages"] :=
  ⟨rfl, rfl⟩

/-- C6: the `POST /api/chat/suggestions` handler is deterministic and purely
local: equal `analysisResults` give equal suggestion lists (over any server
states and timestamps), and the handler makes no external call. -/
theorem suggestions_deterministic_and_local {S T : Type} (s1 : S) (s2 : T)
    (now1 now2 : String) (b1 b2 : SuggestionsBody)
    (h : b1.analysisResults = b2.analysisResults) :
    (suggestionsHandler s1 now1 b1).1.suggestions =
      (suggestionsHandler s2 now2 b2).1.suggestions ∧
    (suggestionsHandler s1 now1 b1).2.2 = [] := by
  rcases b1 with ⟨a1⟩
  rcases b2 with ⟨a2⟩
  simp only at h
  subst h
  cases a1 <;> simp [suggestionsHandler]

/-- An `analysisResults` object with every field absent. -/
def emptyAnalysisResults : AnalysisResults :=
  { caption := none, description := none, objects := none, people := none,
    tags := none, text := none, color := none, enhanced := false,
    analysis := none, sceneContext := none, activities := none,
    moodAtmosphere := none, colorsComposition := none, interestingDetails := none }

/-- Witness for C6 at concrete states, timestamps and body. -/
theorem suggestions_deterministic_and_local_witness :
    (SuggestionsBody.mk (some emptyAnalysisResults)).analysisResults =
      (SuggestionsBody.mk (some emptyAnalysisResults)).analysisResults ∧
    (suggestionsHandler (0 : Nat) "t1" ⟨some emptyAnalysisResults⟩).1.suggestions =
      (suggestionsHandler (true : Bool) "t2" ⟨some emptyAnalysisResults⟩).1.suggestions ∧
    (suggestionsHandler (0 : Nat) "t1" ⟨some emptyAnalysisResults⟩).2.2 = [] :=
  ⟨rfl,
   (suggestions_deterministic_and_local 0 true "t1" "t2" _ _ rfl).1,
   (suggestions_deterministic_and_local 0 true "t1" "t2" _ _ rfl).2⟩

/-- Truthiness of an optional array combined with a non-emptiness check
(`xs && xs.length > 0`). -/
def listTruthyNonempty {α : Type} : Option (List α) → Bool
  | some l => !l.isEmpty
  | none => false

/-- The caption section contributes exactly when `caption` is present. -/
theorem captionPart_if (r : AnalysisResults) :
    (if r.caption.isSome then captionPart r else "") = captionPart r := by
  cases h : r.caption <;> simp [captionPart, h]

/-- The detailed-captions section contributes exactly when
`description.captions` is present. -/
theorem descriptionPart_if (r : AnalysisResults) :
    (if (r.description.bind DescriptionInfo.captions).isSome then descriptionPart r else "") =
      descriptionPart r := by
  cases h : r.description with
  | none => simp [descriptionPart, h]
  | some d => cases hc : d.captions <;> simp [descriptionPart, h, hc]

/-- The objects section contributes exactly when `objects` is present and
non-empty. -/
theorem objectsPart_if (r : AnalysisResults) :
    (if listTruthyNonempty r.objects then objectsPart r else "") = objectsPart r := by
  cases h : r.objects with
  | none => simp [listTruthyNonempty, objectsPart, h]
  | some l => cases l <;> simp [listTruthyNonempty, objectsPart, h]

/-- The people section contributes exactly when `people` is present and
non-empty. -/
theorem peoplePart_if (r : AnalysisResults) :
    (if listTruthyNonempty r.people then peoplePart r else "") = peoplePart r := by
  cases h : r.people with
  | none => simp [listTruthyNonempty, peoplePart, h]
  | some l => cases l <;> simp [listTruthyNonempty, peoplePart, h]

/-- The tags section contributes exactly when `tags` is present and non-empty. -/
theorem tagsPart_if (r : AnalysisResults) :
    (if listTruthyNonempty r.tags then tagsPart r else "") = tagsPart r := by
  cases h : r.tags with
  | none => simp [listTruthyNonempty, tagsPart, h]
  | some l => cases l <;> simp [listTruthyNonempty, tagsPart, h]

/-- The OCR-text section contributes exactly when `text` is present and
non-empty. -/
theorem textPart_if (r : AnalysisResults) :
    (if listTruthyNonempty r.text then textPart r else "") = textPart r := by
  cases h : r.text with
  | none => simp [listTruthyNonempty, textPart, h]
  | some l => cases l <;> simp [listTruthyNonempty, textPart, h]

/-- The color section contributes exactly when `color` is present. -/
theorem colorPart_if (r : AnalysisResults) :
    (if r.color.isSome then colorPart r else "") = colorPart r := by
  cases h : r.color <;> simp [colorPart, h]

/-- C4: `buildAnalysisContext` is the concatenation, in the fixed order
caption, detailed captions, objects, people, tags, OCR text, color, of exactly
the sections whose field is present (and non-empty for the list-valued fields
objects, people, tags, text); an absent or empty field contributes the empty
string. -/
theorem buildAnalysisContext_sections (r : AnalysisResults) :
    buildAnalysisContext r =
      (if r.caption.isSome then captionPart r else "") ++
      (if (r.description.bind DescriptionInfo.captions).isSome then descriptionPart r else "") ++
      (if listTruthyNonempty r.objects then objectsPart r else "") ++
      (if listTruthyNonempty r.people then peoplePart r else "") ++
      (if listTruthyNonempty r.tags then tagsPart r else "") ++
      (if listTruthyNonempty r.text then textPart r else "") ++
      (if r.color.isSome then colorPart r else "") := by
  rw [captionPart_if, descriptionPart_if, objectsPart_if, peoplePart_if,
      tagsPart_if, textPart_if, colorPart_if]
  rfl

/-- C9: for a successful base64 (JSON) analyze request the response's
`imageUrl` is `null` and no blob upload happens: the blob step reads
`req.file.originalname`, which throws for base64 requests, the inner catch
swallows it, and `imageUrl` keeps its initial `null` while the analysis
succeeds. -/
theorem base64_analyze_imageUrl_null (cfg : AppCfg)
    (vOracle : String → String → List Nat → Except AxiosError V4Result)
    (bOracle : List Nat → String → Except JsError String)
    (req : VisionRequest) (s : String) (v4 : V4Result)
    (hmp : req.contentTypeMultipart = false)
    (hfile : req.file = none)
    (himg : req.body.image = some s)
    (hne : ¬ (b64decode s).length = 0)
    (hsz : (b64decode s).length ≤ 20 * 1024 * 1024)
    (hcfg : cfg.visionConfigured = true)
    (hok : vOracle (",".intercalate (requestedFeatures req.body.features))
            (requestedLanguage req.body.language) (b64decode s) = .ok v4) :
    visionAnalyzeEndpoint cfg vOracle bOracle req =
      ({ status := 200, errorLabel := none,
         responseBody := some (classicAnalysisResponse none cfg.now v4) },
       [.visionAnalyze (",".intercalate (requestedFeatures req.body.features))
          (requestedLanguage req.body.language) (b64decode s)]) ∧
    getField (classicAnalysisResponse none cfg.now v4) "imageUrl" = some Json.null ∧
    getField (classicAnalysisResponse none cfg.now v4) "success" = some (Json.bool true) := by
  refine ⟨?_, rfl, rfl⟩
  rcases req with ⟨mp, file, body⟩
  rcases body with ⟨img, feats, lang⟩
  simp only at hmp himg hfile hok
  subst hmp
  subst himg
  subst hfile
  simp only [visionAnalyzeEndpoint, conditionalUpload, analyzeHandler, Bool.false_eq_true,
    if_false]
  simp only [hne, if_false, hcfg,
    (by omega : ¬ (b64decode s).length > 20 * 1024 * 1024), ite_false, ite_true,
    not_true, not_false_iff]
  rw [hok]
  rw [if_neg (by omega : ¬ ((b64decode s).length > 20 * 1024 * 1024))]

/-- Witness for C9: a concrete base64 request to a configured service. -/
theorem base64_analyze_imageUrl_null_witness :
    ¬ (b64decode "AAAA").length = 0 ∧
    (b64decode "AAAA").length ≤ 20 * 1024 * 1024 ∧
    (visionAnalyzeEndpoint
        { visionConfigured := true, translatorConfigured := true,
          openaiConfigured := true, now := "t0", defaultTargetLanguage := "en" }
        (fun _ _ _ => .ok { captionResult := none, denseCaptionsResult := none,
                            objectsResult := none, peopleResult := none,
                            tagsResult := none, smartCropsResult := none,
                            readResult := none })
        (fun _ _ => .error ⟨none, none, none⟩)
        { contentTypeMultipart := false, file := none,
          body := { image := some "AAAA", features := none, language := none } }).1.status = 200 ∧
    getField (classicAnalysisResponse none "t0"
        { captionResult := none, denseCaptionsResult := none, objectsResult := none,
          peopleResult := none, tagsResult := none, smartCropsResult := none,
          readResult := none }) "imageUrl" = some Json.null := by
  refine ⟨by decide, by decide, ?_, ?_⟩
  · have h := base64_analyze_imageUrl_null
      { visionConfigured := true, translatorConfigured := true,
        openaiConfigured := true, now := "t0", defaultTargetLanguage := "en" }
      (fun _ _ _ => .ok { captionResult := none, denseCaptionsResult := none,
                          objectsResult := none, peopleResult := none,
                          tagsResult := none, smartCropsResult := none,
                          readResult := none })
      (fun _ _ => .error ⟨none, none, none⟩)
      { contentTypeMultipart := false, file := none,
        body := { image := some "AAAA", features := none, language := none } }
      "AAAA" _ rfl rfl rfl (by decide) (by decide) rfl rfl
    rw [h.1]
  · have h := base64_analyze_imageUrl_null
      { visionConfigured := true, translatorConfigured := true,
        openaiConfigured := true, now := "t0", defaultTargetLanguage := "en" }
      (fun _ _ _ => .ok { captionResult := none, denseCaptionsResult := none,
                          objectsResult := none, peopleResult := none,
                          tagsResult := none, smartCropsResult := none,
                          readResult := none })
      (fun _ _ => .error ⟨none, none, none⟩)
      { contentTypeMultipart := false, file := none,
        body := { image := some "AAAA", features := none, language := none } }
      "AAAA" _ rfl rfl rfl (by decide) (by decide) rfl rfl
    exact h.2.1

/-- A Vision v4.0 result with every section absent. -/
def c2V4 : V4Result :=
  { captionResult := none, denseCaptionsResult := none, objectsResult := none,
    peopleResult := none, tagsResult := none, smartCropsResult := none,
    readResult := none }

/-- A fully configured backend. -/
def c2Cfg : AppCfg :=
  { visionConfigured := true, translatorConfigured := true,
    openaiConfigured := true, now := "t0", defaultTargetLanguage := "en" }

/-- A base64 analyze request naming the unsupported feature `InvalidFeature`. -/
def c2Req : VisionRequest :=
  { contentTypeMultipart := false, file := none,
    body := { image := some "AAAA", features := some "InvalidFeature", language := none } }

/-- C2 (code bug): `validateImageAnalysisRequest` is imported by the vision
router but never attached to `POST /analyze`, so a request naming a feature
outside the supported set is not rejected with 400: the handler forwards it to
the Azure Vision service (the call appears in the trace with
`features=InvalidFeature`) and answers with the upstream status, while the
unattached validator itself would have rejected the same `features` value. -/
theorem vision_validation_not_wired :
    (visionAnalyzeEndpoint c2Cfg (fun _ _ _ => .ok c2V4)
        (fun _ _ => .error ⟨none, none, none⟩) c2Req).2 =
      [ExtCall.visionAnalyze "InvalidFeature" "en" [0, 0, 0]] ∧
    (visionAnalyzeEndpoint c2Cfg (fun _ _ _ => .ok c2V4)
        (fun _ _ => .error ⟨none, none, none⟩) c2Req).1.status = 200 ∧
    validateImageAnalysisRequest
        { image := none, features := some "InvalidFeature", language := none } none =
      some (400, "Validation failed") := by
  refine ⟨?_, ?_, ?_⟩ <;> rfl

/-- C8: the chat handlers are stateless — they return the server state
unchanged — and the messages array sent to OpenAI is `chatMessages` applied to
exactly the request body's `question`, `analysisResults` and
`conversationHistory`. -/
theorem chat_handlers_stateless {S : Type} (state : S) (cfg : AppCfg)
    (oracle : List ChatMsg → Except ChatApiError (Option String))
    (b : ChatBody) (now : String) (sb : SuggestionsBody) :
    (chatAnalyzeHandler state cfg oracle b).2.1 = state ∧
    (suggestionsHandler state now sb).2.1 = state ∧
    (∀ msgs, ExtCall.openaiChat msgs ∈ (chatAnalyzeHandler state cfg oracle b).2.2 →
      ∃ q r, b.question = some q ∧ b.analysisResults = some r ∧
        msgs = chatMessages q r b.conversationHistory) := by
  refine ⟨?_, ?_, ?_⟩
  · rcases b with ⟨q?, a?, hist⟩
    rcases q? with _ | q <;> rcases a? with _ | r <;>
      simp only [chatAnalyzeHandler]
    all_goals repeat' first
      | rfl
      | split
  · rcases sb with ⟨a?⟩
    rcases a? with _ | r <;> rfl
  · intro msgs hmem
    rcases b with ⟨q?, a?, hist⟩
    rcases q? with _ | q
    · simp [chatAnalyzeHandler] at hmem
    · rcases a? with _ | r
      · simp [chatAnalyzeHandler] at hmem
      · refine ⟨q, r, rfl, rfl, ?_⟩
        simp only [chatAnalyzeHandler] at hmem
        by_cases hq : q = ""
        · rw [if_pos hq] at hmem
          simp at hmem
        · rw [if_neg hq] at hmem
          by_cases hc : cfg.openaiConfigured = true
          · rw [if_neg (by simp [hc])] at hmem
            split at hmem <;>
              first
                | simpa using hmem
                | (split at hmem <;>
                    first
                      | simpa using hmem
                      | (split at hmem <;> simpa using hmem))
          · rw [if_pos (by simpa using hc)] at hmem
            simp at hmem

/-- The oracle used in the C8 witness. -/
def c8Oracle : List ChatMsg → Except ChatApiError (Option String) :=
  fun _ => .ok (some "An answer")

/-- The body used in the C8 witness. -/
def c8Body : ChatBody :=
  { question := some "What is this?", analysisResults := some emptyAnalysisResults,
    conversationHistory := [] }

/-- Witness for C8: a concrete chat request that reaches the OpenAI call. -/
theorem chat_handlers_stateless_witness :
    ExtCall.openaiChat (chatMessages "What is this?" emptyAnalysisResults []) ∈
      (chatAnalyzeHandler (0 : Nat) c2Cfg c8Oracle c8Body).2.2 ∧
    (chatAnalyzeHandler (0 : Nat) c2Cfg c8Oracle c8Body).2.1 = 0 ∧
    (∃ q r, c8Body.question = some q ∧ c8Body.analysisResults = some r ∧
      chatMessages "What is this?" emptyAnalysisResults [] =
        chatMessages q r c8Body.conversationHistory) := by
  have htr : (chatAnalyzeHandler (0 : Nat) c2Cfg c8Oracle c8Body).2.2 =
      [ExtCall.openaiChat (chatMessages "What is this?" emptyAnalysisResults [])] := rfl
  have hmem : ExtCall.openaiChat (chatMessages "What is this?" emptyAnalysisResults []) ∈
      (chatAnalyzeHandler (0 : Nat) c2Cfg c8Oracle c8Body).2.2 := by
    rw [htr]; exact List.mem_singleton.mpr rfl
  exact ⟨hmem,
    (chat_handlers_stateless 0 c2Cfg c8Oracle c8Body "t" ⟨none⟩).1,
    (chat_handlers_stateless 0 c2Cfg c8Oracle c8Body "t" ⟨none⟩).2.2 _ hmem⟩

/-- A concrete Vision v4.0 result with a caption, one object and one tag. -/
def c1V4 : V4Result :=
  { captionResult := some { text := "a cat", confidence := ⟨95, 2⟩ },
    denseCaptionsResult := none,
    objectsResult := some [{ tags := [{ name := "cat", confidence := ⟨9, 1⟩ }],
                             name := none, confidence := none,
                             boundingBox := { x := ⟨0, 0⟩, y := ⟨0, 0⟩, w := ⟨10, 0⟩, h := ⟨10, 0⟩ } }],
    peopleResult := none,
    tagsResult := some [{ name := "cat", confidence := ⟨9, 1⟩ }],
    smartCropsResult := none,
    readResult := none }

/-- A concrete parsed GPT-4o answer with every requested field present. -/
def c1Gpt : GPTAnalysis :=
  { mainDescription := "A cat on a sofa", objects := some ["cat"],
    sceneContext := some "indoor", activities := some ["sitting"],
    moodAtmosphere := some "calm", textContent := some "hi",
    colorsComposition := some "red, blue", interestingDetails := some ["whiskers"],
    confidence := some ⟨9, 1⟩ }

/-- A concrete token-usage object. -/
def c1Usage : Json := .obj [("total_tokens", .num ⟨10, 0⟩)]

/-- The path `analysis.objects[i].boundingBox` of the classic response. -/
def c1Path : JPath := .field "analysis" (.field "objects" (.elem (.field "boundingBox" .here)))

/-- Counterexample to C1 as stated: the classic analyze response has the path
`analysis.objects[i].boundingBox`, but the enhanced GPT-4o result does not —
its `analysis.objects` entries are plain strings, and its reshaped `objects`
entries use the keys `object`/`confidence`/`rectangle`, not
`name`/`confidence`/`boundingBox`. -/
theorem enhanced_schema_counterexample :
    hasPath (classicAnalysisResponse (some "https://blob/img") "t0" c1V4) c1Path = true ∧
    hasPath (enhancedServiceResult c1Gpt c1Usage) c1Path = false := by
  constructor <;> rfl

/-- C1 (amended): the enhanced path reshapes the model answer into the fixed
legacy compatibility schema — top-level keys `enhanced`, `model`, `analysis`,
`caption`, `description`, `objects`, `tags`, `text`, `color`, `sceneContext`,
`activities`, `moodAtmosphere`, `colorsComposition`, `interestingDetails`,
`usage`; `caption` an object with `text`/`confidence`; `objects` entries keyed
`object`/`confidence`/`rectangle` — which is not the classic
`POST /api/vision/analyze` response schema, whose `analysis.objects` entries
are keyed `name`/`confidence`/`boundingBox`. -/
theorem enhanced_schema_is_legacy (a : GPTAnalysis) (us : Json) (v4 : V4Result)
    (img : Option String) (ts : String) :
    jsonKeys (enhancedServiceResult a us) =
      ["enhanced", "model", "analysis", "caption", "description", "objects", "tags",
       "text", "color", "sceneContext", "activities", "moodAtmosphere",
       "colorsComposition", "interestingDetails", "usage"] ∧
    jsonKeys ((getField (enhancedServiceResult a us) "caption").getD Json.null) =
      ["text", "confidence"] ∧
    (∀ j ∈ jsonElems ((getField (enhancedServiceResult a us) "objects").getD Json.null),
      jsonKeys j = ["object", "confidence", "rectangle"]) ∧
    (∀ j ∈ jsonElems ((getField ((getField (classicAnalysisResponse img ts v4)
          "analysis").getD Json.null) "objects").getD Json.null),
      jsonKeys j = ["name", "confidence", "boundingBox"]) := by
  refine ⟨rfl, rfl, ?_, ?_⟩
  · have h : (getField (enhancedServiceResult a us) "objects").getD Json.null =
        Json.arr ((a.objects.getD []).map (fun o =>
          Json.obj [("object", .str o), ("confidence", .num ⟨85, 2⟩),
            ("rectangle", .obj [("x", .num ⟨0, 0⟩), ("y", .num ⟨0, 0⟩),
                                ("w", .num ⟨100, 0⟩), ("h", .num ⟨100, 0⟩)])])) := rfl
    rw [h]
    intro j hj
    simp only [jsonElems] at hj
    obtain ⟨o, _, rfl⟩ := List.mem_map.mp hj
    rfl
  · have h : (getField ((getField (classicAnalysisResponse img ts v4)
          "analysis").getD Json.null) "objects").getD Json.null =
        Json.arr ((v4.objectsResult.getD []).map (fun o =>
          Json.obj [("name", classicObjectName o),
            ("confidence", classicObjectConfidence o),
            ("boundingBox", bboxJson o.boundingBox)])) := rfl
    rw [h]
    intro j hj
    simp only [jsonElems] at hj
    obtain ⟨o, _, rfl⟩ := List.mem_map.mp hj
    rfl

/-- Witness for C1 (amended) at the concrete inputs, discharging both
membership hypotheses. -/
theorem enhanced_schema_is_legacy_witness :
    (Json.obj [("object", Json.str "cat"), ("confidence", Json.num ⟨85, 2⟩),
       ("rectangle", Json.obj [("x", Json.num ⟨0, 0⟩), ("y", Json.num ⟨0, 0⟩),
                               ("w", Json.num ⟨100, 0⟩), ("h", Json.num ⟨100, 0⟩)])]) ∈
      jsonElems ((getField (enhancedServiceResult c1Gpt c1Usage) "objects").getD Json.null) ∧
    jsonKeys (Json.obj [("object", Json.str "cat"), ("confidence", Json.num ⟨85, 2⟩),
       ("rectangle", Json.obj [("x", Json.num ⟨0, 0⟩), ("y", Json.num ⟨0, 0⟩),
                               ("w", Json.num ⟨100, 0⟩), ("h", Json.num ⟨100, 0⟩)])]) =
      ["object", "confidence", "rectangle"] ∧
    (Json.obj [("name", Json.str "cat"), ("confidence", Json.num ⟨9, 1⟩),
       ("boundingBox", Json.obj [("x", Json.num ⟨0, 0⟩), ("y", Json.num ⟨0, 0⟩),
                                 ("w", Json.num ⟨10, 0⟩), ("h", Json.num ⟨10, 0⟩)])]) ∈
      jsonElems ((getField ((getField (classicAnalysisResponse (some "https://blob/img") "t0" c1V4)
          "analysis").getD Json.null) "objects").getD Json.null) ∧
    jsonKeys (Json.obj [("name", Json.str "cat"), ("confidence", Json.num ⟨9, 1⟩),
       ("boundingBox", Json.obj [("x", Json.num ⟨0, 0⟩), ("y", Json.num ⟨0, 0⟩),
                                 ("w", Json.num ⟨10, 0⟩), ("h", Json.num ⟨10, 0⟩)])]) =
      ["name", "confidence", "boundingBox"] := by
  have hm1 : (Json.obj [("object", Json.str "cat"), ("confidence", Json.num ⟨85, 2⟩),
       ("rectangle", Json.obj [("x", Json.num ⟨0, 0⟩), ("y", Json.num ⟨0, 0⟩),
                               ("w", Json.num ⟨100, 0⟩), ("h", Json.num ⟨100, 0⟩)])]) ∈
      jsonElems ((getField (enhancedServiceResult c1Gpt c1Usage) "objects").getD Json.null) := by
    have h : jsonElems ((getField (enhancedServiceResult c1Gpt c1Usage) "objects").getD Json.null) =
        [Json.obj [("object", Json.str "cat"), ("confidence", Json.num ⟨85, 2⟩),
          ("rectangle", Json.obj [("x", Json.num ⟨0, 0⟩), ("y", Json.num ⟨0, 0⟩),
                                  ("w", Json.num ⟨100, 0⟩), ("h", Json.num ⟨100, 0⟩)])]] := rfl
    rw [h]
    exact List.mem_singleton.mpr rfl
  have hm2 : (Json.obj [("name", Json.str "cat"), ("confidence", Json.num ⟨9, 1⟩),
       ("boundingBox", Json.obj [("x", Json.num ⟨0, 0⟩), ("y", Json.num ⟨0, 0⟩),
                                 ("w", Json.num ⟨10, 0⟩), ("h", Json.num ⟨10, 0⟩)])]) ∈
      jsonElems ((getField ((getField (classicAnalysisResponse (some "https://blob/img") "t0" c1V4)
          "analysis").getD Json.null) "objects").getD Json.null) := by
    have h : jsonElems ((getField ((getField (classicAnalysisResponse (some "https://blob/img") "t0" c1V4)
          "analysis").getD Json.null) "objects").getD Json.null) =
        [Json.obj [("name", Json.str "cat"), ("confidence", Json.num ⟨9, 1⟩),
          ("boundingBox", Json.obj [("x", Json.num ⟨0, 0⟩), ("y", Json.num ⟨0, 0⟩),
                                    ("w", Json.num ⟨10, 0⟩), ("h", Json.num ⟨10, 0⟩)])]] := rfl
    rw [h]
    exact List.mem_singleton.mpr rfl
  exact ⟨hm1,
    (enhanced_schema_is_legacy c1Gpt c1Usage c1V4 (some "https://blob/img") "t0").2.2.1 _ hm1,
    hm2,
    (enhanced_schema_is_legacy c1Gpt c1Usage c1V4 (some "https://blob/img") "t0").2.2.2 _ hm2⟩

/-- The first detected object's name, used in the object-specific suggestion. -/
def firstObjectName (r : AnalysisResults) : String :=
  match r.objects with
  | some (o :: _) => o.object
  | _ => ""

/-- How many object questions the standard branch pushes. -/
def objQuestionCount (r : AnalysisResults) : Nat :=
  match r.objects with
  | some (_ :: rest) => if rest.isEmpty then 1 else 2
  | _ => 0

/-- How many people questions the standard branch pushes. -/
def peopleQuestionCount (r : AnalysisResults) : Nat :=
  match r.people with
  | some (_ :: rest) => if rest.isEmpty then 1 else 2
  | _ => 0

/-- The object-specific suggestion always starts with the letter T. -/
theorem tellQuestion_head (x : String) :
    ("Tell me more about the " ++ x ++ " in the image").data.head? = some 'T' := rfl

/-- The first text question is not an object-specific suggestion. -/
theorem textQuestion_ne_tell (x : String) :
    ("What does the text in the image say?" =
      "Tell me more about the " ++ x ++ " in the image") = False := by
  apply eq_false
  intro h
  have hh := tellQuestion_head x
  rw [← h] at hh
  exact absurd hh (by decide)

/-- The first people question is not an object-specific suggestion. -/
theorem peopleQuestion_ne_tell (x : String) :
    ("What can you tell me about the people in the image?" =
      "Tell me more about the " ++ x ++ " in the image") = False := by
  apply eq_false
  intro h
  have hh := tellQuestion_head x
  rw [← h] at hh
  exact absurd hh (by decide)

/-- Appending the empty object name. -/
theorem tell_empty_name :
    "Tell me more about the " ++ "" ++ " in the image" =
      "Tell me more about the  in the image" := rfl

/-- An `analysisResults` with two objects, two people and OCR text: the claim
of C5 fails on it. -/
def c5Input : AnalysisResults :=
  { caption := none, description := none,
    objects := some [{ object := "dog", confidence := ⟨9, 1⟩,
                       rectangle := { x := ⟨0, 0⟩, y := ⟨0, 0⟩, w := ⟨1, 0⟩, h := ⟨1, 0⟩ } },
                     { object := "ball", confidence := ⟨8, 1⟩,
                       rectangle := { x := ⟨1, 0⟩, y := ⟨1, 0⟩, w := ⟨2, 0⟩, h := ⟨2, 0⟩ } }],
    people := some [{ rectangle := { x := ⟨0, 0⟩, y := ⟨0, 0⟩, w := ⟨1, 0⟩, h := ⟨1, 0⟩ } },
                    { rectangle := { x := ⟨2, 0⟩, y := ⟨2, 0⟩, w := ⟨3, 0⟩, h := ⟨3, 0⟩ } }],
    tags := none, text := some ["HELLO"], color := none, enhanced := false,
    analysis := none, sceneContext := none, activities := none,
    moodAtmosphere := none, colorsComposition := none, interestingDetails := none }

/-- Counterexample to C5 as stated: on `c5Input` (standard branch,
`text` non-empty) the 6-entry truncation cuts both text questions, so the
suggestion list does not contain text questions although `results.text` is
non-empty. -/
theorem suggestions_text_counterexample :
    isEnhancedAnalysis c5Input = false ∧
    listTruthyNonempty c5Input.text = true ∧
    "What does the text in the image say?" ∉ generateQuestionSuggestions c5Input ∧
    "Can you explain the meaning of the text?" ∉ generateQuestionSuggestions c5Input := by
  refine ⟨rfl, rfl, ?_, ?_⟩ <;> decide

/-- C5 (amended): for a non-enhanced `analysisResults` the suggestion list
always contains the two basic opener questions and has at most 6 entries;
it contains an object-specific question iff `objects` is non-empty and a people
question iff `people` is non-empty; it contains a text question iff `text` is
non-empty **and** the object and people questions leave room in the 6-entry
truncation (at most 3 of them). -/
theorem suggestions_fields_amended (r : AnalysisResults)
    (h : isEnhancedAnalysis r = false) :
    ("What do you see in this image?" ∈ generateQuestionSuggestions r) ∧
    ("Can you describe the main subject?" ∈ generateQuestionSuggestions r) ∧
    (generateQuestionSuggestions r).length ≤ 6 ∧
    ((("Tell me more about the " ++ firstObjectName r ++ " in the image") ∈
        generateQuestionSuggestions r ∨
      "What\x27s the relationship between the objects?" ∈ generateQuestionSuggestions r) ↔
      listTruthyNonempty r.objects = true) ∧
    (("What can you tell me about the people in the image?" ∈
        generateQuestionSuggestions r) ↔
      listTruthyNonempty r.people = true) ∧
    (("What does the text in the image say?" ∈ generateQuestionSuggestions r) ↔
      (listTruthyNonempty r.text = true ∧
       objQuestionCount r + peopleQuestionCount r ≤ 3)) := by
  rcases r with ⟨cap, desc, objs, ppl, tags, txt, col, enh, ana, sc, act, mood, cc, idet⟩
  have hstd : generateQuestionSuggestions
        ⟨cap, desc, objs, ppl, tags, txt, col, enh, ana, sc, act, mood, cc, idet⟩ =
      (standardSuggestionList
        ⟨cap, desc, objs, ppl, tags, txt, col, enh, ana, sc, act, mood, cc, idet⟩).take 6 := by
    rcases ana with _ | a
    · rfl
    · rcases enh
      · rfl
      · simp [isEnhancedAnalysis] at h
  rw [hstd]
  clear h hstd
  rcases objs with _ | (_ | ⟨o, _ | ⟨o2, os⟩⟩) <;>
    rcases ppl with _ | (_ | ⟨p, _ | ⟨p2, ps⟩⟩) <;>
      rcases txt with _ | (_ | ⟨t, ts⟩) <;>
        simp [standardSuggestionList, firstObjectName, objQuestionCount,
          peopleQuestionCount, listTruthyNonempty, List.take, tell_empty_name,
          textQuestion_ne_tell, peopleQuestion_ne_tell]

/-- Witness for C5 (amended) at a concrete non-enhanced input. -/
theorem suggestions_fields_amended_witness :
    isEnhancedAnalysis emptyAnalysisResults = false ∧
    "What do you see in this image?" ∈ generateQuestionSuggestions emptyAnalysisResults ∧
    (generateQuestionSuggestions emptyAnalysisResults).length ≤ 6 :=
  ⟨rfl, (suggestions_fields_amended emptyAnalysisResults rfl).1,
   (suggestions_fields_amended emptyAnalysisResults rfl).2.2.1⟩

end AzureLens
